import Mathlib

/-!
Shallow embedding of `src/packages/drip-table/src/components/generic-render/index.tsx`
(the generic toolbar renderer of drip-table): its element data model, the
display-column visibility transition, the search element's local state machine,
slot resolution and the toolbar render loop, together with proofs of the
behavioural properties stated in the specification.
-/

namespace DripTable

/-- A JS `number | string` value, as used for search keys
(`searchKeys[].value`, `searchKeyDefaultValue`). -/
inductive SearchVal where
  | num (n : Int)
  | str (s : String)
deriving DecidableEq, Repr

/-- JS truthiness of a `number | string | undefined` value:
`undefined`, `0` and the empty string are falsy, everything else truthy. -/
def jsTruthy : Option SearchVal → Bool
  | none => false
  | some (.num n) => n != 0
  | some (.str s) => s != ""

/-- JS `v || d` on an optional string: the default is taken when `v` is
`undefined` or the empty string (both falsy). -/
def jsOrString (v : Option String) (d : String) : String :=
  match v with
  | none => d
  | some s => if s = "" then d else s

/-- The `span` field of a toolbar element:
`number | 'flex-auto' | string` in the source. -/
inductive SpanVal where
  | num (n : Nat)
  | flexAuto
  | str (s : String)
deriving DecidableEq, Repr

/-- `GenericRenderElementBasic`: layout fields shared by every toolbar element
(`className`, `style`, `span`, `align`, `visible`).  The CSS `style` bag is
kept as an opaque optional string; `align` is one of the five flex keywords. -/
structure GenericRenderElementBasic where
  className : Option String := none
  style : Option String := none
  span : Option SpanVal := none
  align : Option String := none
  visible : Option Bool := none
deriving DecidableEq, Repr

/-- One entry of `searchKeys`: `{ label: string; value: number | string }`. -/
structure SearchKeyItem where
  label : String
  value : SearchVal
deriving DecidableEq, Repr

/-- The variant-specific payload of `DripTableGenericRenderElement`, a tagged
union over the seven element kinds of the source.  The slot element's
free-form `props` bag is kept as an opaque association list. -/
inductive GenericRenderElementPayload where
  | spacer
  | text (text : String)
  | html (html : String)
  | search (wrapperClassName : Option String) (placeholder : Option String)
      (allowClear : Option Bool) (searchButtonText : Option String)
      (searchButtonSize : Option String)
      (searchKeys : Option (List SearchKeyItem))
      (searchKeyDefaultValue : Option SearchVal)
  | slot (slot : String) (props : List (String × String))
  | insertButton (insertButtonText : Option String) (showIcon : Option Bool)
  | displayColumnSelector (selectorButtonText : Option String)
deriving DecidableEq, Repr

/-- `DripTableGenericRenderElement`: the common layout fields plus the
variant payload. -/
structure DripTableGenericRenderElement where
  basic : GenericRenderElementBasic
  payload : GenericRenderElementPayload
deriving DecidableEq, Repr

/-- The part of a column schema the generic renderer reads:
`key`, `title` and the optional `hidable` flag. -/
structure Column where
  key : String
  title : String
  hidable : Option Bool := none
deriving DecidableEq, Repr

/-- The part of the table schema the generic renderer reads:
`schema.id` and `schema.columns`. -/
structure TableSchema where
  id : Option String := none
  columns : List Column
deriving DecidableEq, Repr

/-- The part of `tableProps` the generic renderer reads: the schema, the data
source (records of an opaque type `R`) and the optional slot registry mapping
a slot identifier to a slot render function (opaque type `S`). -/
structure TableProps (R S : Type) where
  schema : TableSchema
  dataSource : List R
  slots : Option (List (String × S)) := none

/-- The table state the generic renderer reads and writes:
`displayColumnKeys`. -/
structure IDripTableContext where
  displayColumnKeys : List String
deriving DecidableEq, Repr

/-- `GenericRenderProps`: the element list plus the table props. -/
structure GenericRenderProps (R S : Type) where
  schemas : List DripTableGenericRenderElement
  tableProps : TableProps R S

/-- `DripTableTableInformation`: the projection `{ id, dataSource }` passed to
every callback. -/
structure DripTableTableInformation (R : Type) where
  id : Option String
  dataSource : List R
deriving DecidableEq, Repr

/-- `tableInfo = useMemo(() => ({ id: tableProps.schema.id,
dataSource: tableProps.dataSource }), [tableProps.schema.id,
tableProps.dataSource])`. -/
def tableInfo {R S : Type} (p : TableProps R S) : DripTableTableInformation R :=
  { id := p.schema.id, dataSource := p.dataSource }

/-- The `{searchKey, searchStr}` payload of the search callback. -/
structure SearchParams where
  searchKey : Option SearchVal
  searchStr : String
deriving DecidableEq, Repr

/-- One external-callback invocation intent emitted by the renderer.  In the
source each callback is optional and invoked through `?.`; an emitted intent
stands for the invocation performed when the consumer supplied the hook. -/
inductive CallbackCall (R : Type) where
  | onSearch (params : SearchParams) (info : DripTableTableInformation R)
  | onInsertButtonClick (info : DripTableTableInformation R)
  | onDisplayColumnKeysChange (displayColumnKeys : List String)
      (info : DripTableTableInformation R)
deriving DecidableEq

/-- The display-column visibility transition of the selector menu's `onClick`:
`displayColumnKeys = state.displayColumnKeys.filter(k => k !== e.key)`, then
`if (!state.displayColumnKeys.includes(e.key)) displayColumnKeys.push(e.key)`.
(The source's `|| []` after `filter` is the identity, since `filter` always
returns an array.) -/
def toggleDisplayColumnKeys (displayColumnKeys : List String) (key : String) : List String :=
  let filtered := displayColumnKeys.filter fun k => k != key
  if key ∈ displayColumnKeys then filtered else filtered ++ [key]

/-- The whole `onClick` handler of the display-column-selector menu: computes
the new `displayColumnKeys`, invokes `onDisplayColumnKeysChange` with it and
the table information, and returns the new state. -/
def displayColumnSelectorClick {R S : Type} (p : TableProps R S) (state : IDripTableContext)
    (key : String) : IDripTableContext × CallbackCall R :=
  let displayColumnKeys := toggleDisplayColumnKeys state.displayColumnKeys key
  (⟨displayColumnKeys⟩, .onDisplayColumnKeysChange displayColumnKeys (tableInfo p))

/-- Iterated selector clicks: the click transition applied left to right. -/
def applyDisplayColumnToggles (keys : List String) (clicks : List String) : List String :=
  clicks.foldl toggleDisplayColumnKeys keys

/-- `hidableColumns = tableProps.schema.columns.filter(c => c.hidable)`
(truthiness of the optional boolean flag). -/
def hidableColumns (schema : TableSchema) : List Column :=
  schema.columns.filter fun c => c.hidable.getD false

/-- One `Menu.Item` of the selector dropdown: keyed by the column key, showing
the column title, with the check icon visible (opacity 1) exactly when the
key is in `tableState.displayColumnKeys`. -/
structure MenuItem where
  key : String
  title : String
  checkIconVisible : Bool
deriving DecidableEq, Repr

/-- The local state of the search toolbar: the single `searchStr`/`searchKey`
`useState` pair shared by every search element of one toolbar. -/
structure SearchState where
  searchStr : String
  searchKey : Option SearchVal
deriving DecidableEq, Repr

/-- The initial `searchKey` state:
`props.schemas.map(s => (s.type === 'search' ? s.searchKeyDefaultValue : ''))
.find(s => s)` — the first truthy value of the mapped list, `undefined` when
none is truthy. -/
def initialSearchKey (schemas : List DripTableGenericRenderElement) : Option SearchVal :=
  ((schemas.map fun s =>
    match s.payload with
    | .search _ _ _ _ _ _ d => d
    | _ => some (.str "")).find? jsTruthy).join

/-- An interaction with a search element: an `onChange` keystroke on the
input, an `onChange` of the search-key select, or an `onSearch` submit. -/
inductive SearchEvent where
  | change (value : String)
  | selectKey (value : SearchVal)
  | submit (value : String)
deriving DecidableEq, Repr

/-- The search element's event handlers: `onChange` stores the trimmed text
(`setSearchStr(e.target.value.trim())`), the select's `onChange` stores the
key (`setSearchKey(value)`) — neither invokes a callback — and `onSearch`
invokes `tableProps.onSearch?.({ searchKey, searchStr: value }, tableInfo)`
without touching the local state. -/
def searchStep {R S : Type} (p : TableProps R S) (st : SearchState) :
    SearchEvent → SearchState × List (CallbackCall R)
  | .change value => ({ st with searchStr := value.trim }, [])
  | .selectKey value => ({ st with searchKey := some value }, [])
  | .submit value => (st, [.onSearch ⟨st.searchKey, value⟩ (tableInfo p)])

/-- Slot resolution:
`tableProps.slots?.[config.slot] || tableProps.slots?.default`. -/
def resolveSlot {S : Type} (slots : Option (List (String × S))) (slotId : String) : Option S :=
  match slots with
  | none => none
  | some registry => (registry.lookup slotId).orElse fun _ => registry.lookup "default"

/-- The inline error text rendered when a slot identifier resolves to
nothing; it names the missing identifier. -/
def slotErrorMessage (slotId : String) : String :=
  "自定义插槽组件渲染函数 tableProps.slots[\x27" ++ slotId ++ "\x27] 不存在"

/-- What a resolved slot element renders: the resolved function together with
the pass-through `props`, `slotType`, `schema`, `dataSource`. -/
structure RenderedSlot (R S : Type) where
  fn : S
  props : List (String × String)
  slotType : String
  schema : TableSchema
  dataSource : List R

/-- The output of `renderColumnContent` for one element, abstracting each JSX
branch of the source to its observable structure.  A search element shows the
shared select value and input value; the selector shows its menu items and
button text. -/
inductive RenderedContent (R S : Type) where
  | null
  | text (text : String)
  | html (html : String)
  | search (hasSelect : Bool) (selectOptions : List SearchKeyItem)
      (selectValue : Option SearchVal) (inputValue : String)
  | slotted (slot : RenderedSlot R S)
  | slotError (message : String)
  | insertButton (text : Option String) (showIcon : Bool)
  | displayColumnSelector (menuItems : List MenuItem) (buttonText : String)

/-- `renderColumnContent(config)`: the branch on `config.type`. -/
def renderColumnContent {R S : Type} (p : TableProps R S) (tableState : IDripTableContext)
    (searchState : SearchState) (config : DripTableGenericRenderElement) :
    RenderedContent R S :=
  match config.payload with
  | .spacer => .null
  | .text t => .text t
  | .html h => .html h
  | .search _ _ _ _ _ searchKeys _ =>
      .search searchKeys.isSome (searchKeys.getD []) searchState.searchKey searchState.searchStr
  | .slot slotId props =>
      match resolveSlot p.slots slotId with
      | some fn => .slotted ⟨fn, props, slotId, p.schema, p.dataSource⟩
      | none => .slotError (slotErrorMessage slotId)
  | .insertButton insertButtonText showIcon =>
      .insertButton insertButtonText (showIcon.getD false)
  | .displayColumnSelector selectorButtonText =>
      let hidable := hidableColumns p.schema
      if hidable.length = 0 then .null
      else
        .displayColumnSelector
          (hidable.map fun c => ⟨c.key, c.title, c.key ∈ tableState.displayColumnKeys⟩)
          (jsOrString selectorButtonText "展示列")

/-- The insert button's `onClick`:
`tableProps.onInsertButtonClick?.(e, tableInfo)`. -/
def insertButtonClick {R S : Type} (p : TableProps R S) : CallbackCall R :=
  .onInsertButtonClick (tableInfo p)

/-- The search callback bound into a slot element:
`(searchParams) => tableProps.onSearch?.(searchParams, tableInfo)`. -/
def slotOnSearch {R S : Type} (p : TableProps R S) (searchParams : SearchParams) :
    CallbackCall R :=
  .onSearch searchParams (tableInfo p)

/-- One `<Col>` of the toolbar row: keyed by the element's array index,
carrying the element's span and the rendered content (content is `null` when
the element has `visible: false`). -/
structure ColNode (R S : Type) where
  key : Nat
  span : Option SpanVal
  content : RenderedContent R S

/-- The toolbar render: `null` when `schemas` is empty, otherwise one `<Col>`
per element in array order, keyed by index, rendering
`item.visible !== false ? renderColumnContent(item) : null`. -/
def genericRender {R S : Type} (props : GenericRenderProps R S)
    (tableState : IDripTableContext) (searchState : SearchState) :
    Option (List (ColNode R S)) :=
  if props.schemas.length > 0 then
    some (props.schemas.enum.map fun item =>
      { key := item.1
        span := item.2.basic.span
        content :=
          if item.2.basic.visible != some false
          then renderColumnContent props.tableProps tableState searchState item.2
          else .null })
  else none

/-- Modelled from the spec: "the initial selected search key is the first
truthy `searchKeyDefaultValue` found across the element list in array order; a
`searchKeyDefaultValue` of 0 or the empty string is treated as absent".  A
direct recursion over the element list, to be compared with
`initialSearchKey`. -/
def firstTruthySearchDefault : List DripTableGenericRenderElement → Option SearchVal
  | [] => none
  | el :: rest =>
    match el.payload with
    | .search _ _ _ _ _ _ (some v) =>
        if jsTruthy (some v) then some v else firstTruthySearchDefault rest
    | _ => firstTruthySearchDefault rest

end DripTable

namespace DripTable

/-! ### Helper lemmas on the display-column toggle -/

lemma filter_ne_of_notMem {keys : List String} {k : String} (h : k ∉ keys) :
    (keys.filter fun x => x != k) = keys :=
  List.filter_eq_self.mpr fun _x hx => bne_iff_ne.mpr fun e => h (e ▸ hx)

lemma notMem_filter_ne (keys : List String) (k : String) :
    k ∉ keys.filter fun x => x != k := by
  simp [List.mem_filter]

lemma mem_filter_ne {keys : List String} {k x : String} :
    (x ∈ keys.filter fun y => y != k) ↔ x ∈ keys ∧ x ≠ k := by
  simp [List.mem_filter]

lemma toggle_of_mem {keys : List String} {k : String} (h : k ∈ keys) :
    toggleDisplayColumnKeys keys k = keys.filter fun x => x != k := by
  simp [toggleDisplayColumnKeys, h]

lemma toggle_of_notMem {keys : List String} {k : String} (h : k ∉ keys) :
    toggleDisplayColumnKeys keys k = keys ++ [k] := by
  simp [toggleDisplayColumnKeys, h, filter_ne_of_notMem h]

lemma mem_toggle {keys : List String} {k x : String}
    (hx : x ∈ toggleDisplayColumnKeys keys k) : x ∈ keys ∨ x = k := by
  by_cases h : k ∈ keys
  · rw [toggle_of_mem h] at hx
    exact Or.inl (mem_filter_ne.mp hx).1
  · rw [toggle_of_notMem h] at hx
    rcases List.mem_append.mp hx with h1 | h1
    · exact Or.inl h1
    · exact Or.inr (List.mem_singleton.mp h1)

lemma hidable_key_mem {schema : TableSchema} {k : String}
    (h : k ∈ (hidableColumns schema).map Column.key) :
    k ∈ schema.columns.map Column.key := by
  simp only [hidableColumns, List.mem_map, List.mem_filter] at *
  obtain ⟨c, ⟨hc, _⟩, rfl⟩ := h
  exact ⟨c, hc, rfl⟩

/-! ### Claim theorems on the display-column toggle -/

/-- C1 (counterexample): toggling the same key twice does not return the
display-column key list to its original value — a key removed from the middle
is re-appended at the end, so the list order changes. -/
theorem toggle_twice_changes_order :
    toggleDisplayColumnKeys (toggleDisplayColumnKeys ["mock_1", "mock_2"] "mock_1") "mock_1"
      = ["mock_2", "mock_1"] ∧
    (["mock_2", "mock_1"] : List String) ≠ ["mock_1", "mock_2"] := by
  decide

/-- C1 (amended): toggling the same key twice yields a display-column key
state with exactly the same members as before (the list order may differ: the
key is re-appended at the end), and each single toggle neither duplicates nor
drops any other key — the occurrence count of every other key is unchanged. -/
theorem toggle_twice_same_members_and_other_keys_kept (keys : List String) (k : String) :
    (∀ x, x ∈ toggleDisplayColumnKeys (toggleDisplayColumnKeys keys k) k ↔ x ∈ keys) ∧
    ∀ x, x ≠ k → (toggleDisplayColumnKeys keys k).count x = keys.count x := by
  constructor
  · intro x
    by_cases h : k ∈ keys
    · rw [toggle_of_mem h, toggle_of_notMem (notMem_filter_ne keys k)]
      simp only [List.mem_append, mem_filter_ne, List.mem_singleton]
      constructor
      · rintro (⟨hx, -⟩ | rfl)
        · exact hx
        · exact h
      · intro hx
        by_cases e : x = k
        · exact Or.inr e
        · exact Or.inl ⟨hx, e⟩
    · have hk : k ∈ keys ++ [k] := List.mem_append.mpr (Or.inr (List.mem_singleton.mpr rfl))
      rw [toggle_of_notMem h, toggle_of_mem hk, List.filter_append, filter_ne_of_notMem h]
      simp
  · intro x hx
    have hpx : (x != k) = true := bne_iff_ne.mpr hx
    by_cases h : k ∈ keys
    · rw [toggle_of_mem h, List.count_filter (p := fun y => y != k) hpx]
    · rw [toggle_of_notMem h, List.count_append, List.count_singleton]
      simp [Ne.symm hx]

theorem toggle_twice_same_members_and_other_keys_kept_witness :
    ("mock_2" ∈ toggleDisplayColumnKeys (toggleDisplayColumnKeys ["mock_1", "mock_2"] "mock_1") "mock_1"
      ↔ "mock_2" ∈ (["mock_1", "mock_2"] : List String)) ∧
    ("mock_2" : String) ≠ "mock_1" ∧
    (toggleDisplayColumnKeys ["mock_1", "mock_2"] "mock_1").count "mock_2"
      = (["mock_1", "mock_2"] : List String).count "mock_2" :=
  ⟨(toggle_twice_same_members_and_other_keys_kept ["mock_1", "mock_2"] "mock_1").1 "mock_2",
   by decide,
   (toggle_twice_same_members_and_other_keys_kept ["mock_1", "mock_2"] "mock_1").2 "mock_2" (by decide)⟩

/-- C6 (counterexample): applying the display-column toggle with the key
"z", which is not among the schema's column keys, is not a no-op: starting
from the display set `["a"]` it yields `["a", "z"]`, appending the unknown
key. -/
theorem nonexistent_key_toggle_changes_state :
    ("z" ∉ (TableSchema.mk none [Column.mk "a" "A" (some true)]).columns.map Column.key) ∧
    toggleDisplayColumnKeys ["a"] "z" = ["a", "z"] ∧
    toggleDisplayColumnKeys ["a"] "z" ≠ ["a"] := by
  decide

/-- C6 (amended): the display-column transition never consults the schema and
never faults: for a key absent from the current schema's columns it behaves
like any other key — if the key is also absent from the display set it is
appended at the end, and if it is a stale member of the display set it is
removed. -/
theorem nonexistent_key_toggle_behavior (schema : TableSchema) (keys : List String)
    (k : String) (_hk : k ∉ schema.columns.map Column.key) :
    (k ∉ keys → toggleDisplayColumnKeys keys k = keys ++ [k]) ∧
    (k ∈ keys → toggleDisplayColumnKeys keys k = keys.filter fun x => x != k) :=
  ⟨fun h => toggle_of_notMem h, fun h => toggle_of_mem h⟩

theorem nonexistent_key_toggle_behavior_witness :
    ("z" ∉ (TableSchema.mk none [Column.mk "a" "A" (some true)]).columns.map Column.key) ∧
    ("z" ∉ (["a"] : List String)) ∧
    toggleDisplayColumnKeys ["a"] "z" = ["a"] ++ ["z"] :=
  ⟨by decide, by decide,
   (nonexistent_key_toggle_behavior (TableSchema.mk none [Column.mk "a" "A" (some true)])
     ["a"] "z" (by decide)).1 (by decide)⟩

/-- C7: starting from a display set whose members all exist among the current
schema's column keys, after any sequence of selector clicks (whose keys are
drawn from the hidable columns listed in the selector menu) every member of
the resulting display-column key set still exists among the schema's column
keys. -/
theorem display_set_keys_exist_after_toggles (schema : TableSchema)
    (init clicks : List String)
    (hinit : ∀ x ∈ init, x ∈ schema.columns.map Column.key)
    (hclicks : ∀ k ∈ clicks, k ∈ (hidableColumns schema).map Column.key) :
    ∀ x ∈ applyDisplayColumnToggles init clicks, x ∈ schema.columns.map Column.key := by
  induction clicks generalizing init with
  | nil => simpa [applyDisplayColumnToggles] using hinit
  | cons c cs ih =>
    have hstep : ∀ x ∈ toggleDisplayColumnKeys init c, x ∈ schema.columns.map Column.key := by
      intro x hx
      rcases mem_toggle hx with h1 | rfl
      · exact hinit x h1
      · exact hidable_key_mem (hclicks x (List.mem_cons_self _ _))
    intro x hx
    exact ih (toggleDisplayColumnKeys init c)
      hstep (fun k hk => hclicks k (List.mem_cons_of_mem _ hk)) x hx

theorem display_set_keys_exist_after_toggles_witness :
    (∀ x ∈ (["mock_1", "mock_2"] : List String),
      x ∈ (TableSchema.mk none [Column.mk "mock_1" "1" (some true),
        Column.mk "mock_2" "2" (some false)]).columns.map Column.key) ∧
    (∀ k ∈ (["mock_1", "mock_1"] : List String),
      k ∈ (hidableColumns (TableSchema.mk none [Column.mk "mock_1" "1" (some true),
        Column.mk "mock_2" "2" (some false)])).map Column.key) ∧
    ∀ x ∈ applyDisplayColumnToggles ["mock_1", "mock_2"] ["mock_1", "mock_1"],
      x ∈ (TableSchema.mk none [Column.mk "mock_1" "1" (some true),
        Column.mk "mock_2" "2" (some false)]).columns.map Column.key :=
  ⟨by decide, by decide,
   display_set_keys_exist_after_toggles _ _ _ (by decide) (by decide)⟩

/-- C9: toggling a key that is currently absent from the display-column key
list appends it at the end, whatever the list's contents and whatever the
key's position in the schema; concretely, hiding then re-showing the first of
three keys moves it to the end, so the display set is order-sensitive as a
list. -/
theorem hidden_key_toggle_appends_at_end (keys : List String) (k : String) (h : k ∉ keys) :
    toggleDisplayColumnKeys keys k = keys ++ [k] ∧
    toggleDisplayColumnKeys (toggleDisplayColumnKeys ["k1", "k2", "k3"] "k1") "k1"
      = ["k2", "k3", "k1"] :=
  ⟨toggle_of_notMem h, by decide⟩

theorem hidden_key_toggle_appends_at_end_witness :
    ("a" ∉ (["b", "c"] : List String)) ∧
    toggleDisplayColumnKeys ["b", "c"] "a" = ["b", "c"] ++ ["a"] :=
  ⟨by decide, (hidden_key_toggle_appends_at_end ["b", "c"] "a" (by decide)).1⟩

end DripTable

namespace DripTable

/-! ### Concrete fixtures used by witnesses -/

/-- An element-basic with every layout field absent. -/
def emptyBasic : GenericRenderElementBasic := {}

/-- The search element of spec Scenario B: two search keys, no default. -/
def scenarioBSearchElement : DripTableGenericRenderElement :=
  ⟨emptyBasic, .search none none none none none
    (some [⟨"A", .num 1⟩, ⟨"B", .num 2⟩]) none⟩

/-- The two-column schema of spec Scenario A: `mock_1` hidable,
`mock_2` not. -/
def mockSchema : TableSchema :=
  ⟨none, [⟨"mock_1", "1", some true⟩, ⟨"mock_2", "2", some false⟩]⟩

/-- Table props over the mock schema (no data, no slots). -/
def mockTableProps : TableProps Nat Nat := ⟨mockSchema, [], none⟩

/-- A two-element toolbar whose first element is invisible. -/
def sampleToolbarProps : GenericRenderProps Nat Nat :=
  ⟨[⟨{ visible := some false }, .text "hidden"⟩, ⟨emptyBasic, .spacer⟩], mockTableProps⟩

/-! ### Helper lemmas on slot resolution -/

lemma resolveSlot_some_of_lookup {S : Type} {registry : List (String × S)} {sid : String}
    {fn : S} (h : registry.lookup sid = some fn) :
    resolveSlot (some registry) sid = some fn := by
  simp [resolveSlot, h, Option.orElse]

lemma resolveSlot_default_of_lookup {S : Type} {registry : List (String × S)} {sid : String}
    {fn : S} (h1 : registry.lookup sid = none) (h2 : registry.lookup "default" = some fn) :
    resolveSlot (some registry) sid = some fn := by
  simp [resolveSlot, h1, h2, Option.orElse]

lemma renderColumnContent_slot_eq {R S : Type} (p : TableProps R S) (ts : IDripTableContext)
    (ss : SearchState) (b : GenericRenderElementBasic) (sid : String)
    (sprops : List (String × String)) :
    renderColumnContent p ts ss ⟨b, .slot sid sprops⟩ =
      match resolveSlot p.slots sid with
      | some fn => .slotted ⟨fn, sprops, sid, p.schema, p.dataSource⟩
      | none => .slotError (slotErrorMessage sid) := rfl

/-! ### Claim theorems on rendering and callbacks -/

/-- C2: when the element list is nonempty, the toolbar renders one column per
element, left to right in array order, each keyed by its array index; the
column of an element with `visible: false` carries no rendered content
(`null`) but is still present in the structure. -/
theorem toolbar_renders_in_order_skipping_invisible {R S : Type}
    (props : GenericRenderProps R S) (ts : IDripTableContext) (ss : SearchState)
    (hne : props.schemas ≠ []) :
    ∃ cols : List (ColNode R S),
      genericRender props ts ss = some cols ∧
      cols.length = props.schemas.length ∧
      (∀ (i : Nat) (el : DripTableGenericRenderElement), props.schemas[i]? = some el →
        cols[i]? = some (ColNode.mk i el.basic.span
          (if el.basic.visible != some false
           then renderColumnContent props.tableProps ts ss el
           else .null))) ∧
      ∀ (i : Nat) (el : DripTableGenericRenderElement), props.schemas[i]? = some el →
        el.basic.visible = some false →
        ∃ c : ColNode R S, cols[i]? = some c ∧ c.content = RenderedContent.null := by
  have hlen : 0 < props.schemas.length := List.length_pos.mpr hne
  refine ⟨props.schemas.enum.map fun item =>
    ColNode.mk item.1 item.2.basic.span
      (if item.2.basic.visible != some false
       then renderColumnContent props.tableProps ts ss item.2
       else .null), ?_, ?_, ?_, ?_⟩
  · unfold genericRender
    rw [if_pos hlen]
  · rw [List.length_map, List.enum_length]
  · intro i el hel
    rw [List.getElem?_map, List.getElem?_enum, hel]
    rfl
  · intro i el hel hv
    rw [List.getElem?_map, List.getElem?_enum, hel]
    refine ⟨_, rfl, ?_⟩
    simp [hv]

theorem toolbar_renders_in_order_skipping_invisible_witness :
    sampleToolbarProps.schemas ≠ [] ∧
    ∃ cols : List (ColNode Nat Nat),
      genericRender sampleToolbarProps ⟨[]⟩ ⟨"", none⟩ = some cols ∧
      cols.length = sampleToolbarProps.schemas.length ∧
      (∀ (i : Nat) (el : DripTableGenericRenderElement), sampleToolbarProps.schemas[i]? = some el →
        cols[i]? = some (ColNode.mk i el.basic.span
          (if el.basic.visible != some false
           then renderColumnContent sampleToolbarProps.tableProps ⟨[]⟩ ⟨"", none⟩ el
           else .null))) ∧
      ∀ (i : Nat) (el : DripTableGenericRenderElement), sampleToolbarProps.schemas[i]? = some el →
        el.basic.visible = some false →
        ∃ c : ColNode Nat Nat, cols[i]? = some c ∧ c.content = RenderedContent.null :=
  ⟨by decide,
   toolbar_renders_in_order_skipping_invisible sampleToolbarProps ⟨[]⟩ ⟨"", none⟩ (by decide)⟩

/-- C3: a slot element resolves to the slot function registered under its
identifier if present, otherwise to the registered `default` slot function if
present, otherwise to an inline error element whose text names the missing
identifier; the slot branch never renders a silent blank. -/
theorem slot_resolution_order {R S : Type} (p : TableProps R S) (ts : IDripTableContext)
    (ss : SearchState) (b : GenericRenderElementBasic) (sid : String)
    (sprops : List (String × String)) :
    (∀ registry fn, p.slots = some registry → registry.lookup sid = some fn →
      renderColumnContent p ts ss ⟨b, .slot sid sprops⟩
        = .slotted ⟨fn, sprops, sid, p.schema, p.dataSource⟩) ∧
    (∀ registry fn, p.slots = some registry → registry.lookup sid = none →
      registry.lookup "default" = some fn →
      renderColumnContent p ts ss ⟨b, .slot sid sprops⟩
        = .slotted ⟨fn, sprops, sid, p.schema, p.dataSource⟩) ∧
    (resolveSlot p.slots sid = none →
      renderColumnContent p ts ss ⟨b, .slot sid sprops⟩
        = .slotError ("自定义插槽组件渲染函数 tableProps.slots[\x27" ++ sid ++ "\x27] 不存在")) ∧
    renderColumnContent p ts ss ⟨b, .slot sid sprops⟩ ≠ .null := by
  refine ⟨?_, ?_, ?_, ?_⟩
  · intro registry fn h1 h2
    rw [renderColumnContent_slot_eq, h1, resolveSlot_some_of_lookup h2]
  · intro registry fn h1 h2 h3
    rw [renderColumnContent_slot_eq, h1, resolveSlot_default_of_lookup h2 h3]
  · intro h
    rw [renderColumnContent_slot_eq, h]
    rfl
  · rw [renderColumnContent_slot_eq]
    cases resolveSlot p.slots sid <;> simp

theorem slot_resolution_order_witness :
    ((TableProps.mk mockSchema ([] : List Nat)
        (some [("x", 7)])).slots = some [("x", 7)]) ∧
    (List.lookup "x" [("x", 7)] = some 7) ∧
    (renderColumnContent (TableProps.mk mockSchema ([] : List Nat) (some [("x", 7)]))
        ⟨[]⟩ ⟨"", none⟩ ⟨emptyBasic, .slot "x" []⟩
      = .slotted ⟨7, [], "x", mockSchema, []⟩) ∧
    (List.lookup "y" [("default", 9)] = none) ∧
    (List.lookup "default" [("default", 9)] = some 9) ∧
    (renderColumnContent (TableProps.mk mockSchema ([] : List Nat) (some [("default", 9)]))
        ⟨[]⟩ ⟨"", none⟩ ⟨emptyBasic, .slot "y" []⟩
      = .slotted ⟨9, [], "y", mockSchema, []⟩) ∧
    (resolveSlot (none : Option (List (String × Nat))) "y" = none) ∧
    renderColumnContent (TableProps.mk mockSchema ([] : List Nat)
        (none : Option (List (String × Nat)))) ⟨[]⟩ ⟨"", none⟩ ⟨emptyBasic, .slot "y" []⟩
      = .slotError ("自定义插槽组件渲染函数 tableProps.slots[\x27" ++ "y" ++ "\x27] 不存在") :=
  ⟨rfl, rfl,
   (slot_resolution_order (TableProps.mk mockSchema ([] : List Nat) (some [("x", 7)]))
     ⟨[]⟩ ⟨"", none⟩ emptyBasic "x" []).1 [("x", 7)] 7 rfl rfl,
   rfl, rfl,
   (slot_resolution_order (TableProps.mk mockSchema ([] : List Nat) (some [("default", 9)]))
     ⟨[]⟩ ⟨"", none⟩ emptyBasic "y" []).2.1 [("default", 9)] 9 rfl rfl rfl,
   rfl,
   (slot_resolution_order (TableProps.mk mockSchema ([] : List Nat)
     (none : Option (List (String × Nat)))) ⟨[]⟩ ⟨"", none⟩ emptyBasic "y" []).2.2.1 rfl⟩

/-- C4: the search callback is emitted only on explicit submit — an input
keystroke and a key-select change update local state and emit nothing — and a
submit emits exactly `onSearch {searchKey, searchStr: value}` with the table
information; with Scenario B's search element (search keys configured, no
default) the initial key state is `undefined`, and submitting "abc" with the
key unset emits `onSearch {searchKey: undefined, searchStr: "abc"}`. -/
theorem search_callback_only_on_submit {R S : Type} (p : TableProps R S) (st : SearchState)
    (s : String) (v : SearchVal) :
    (searchStep p st (.change s)).2 = [] ∧
    (searchStep p st (.selectKey v)).2 = [] ∧
    (searchStep p st (.submit s)).2 = [.onSearch ⟨st.searchKey, s⟩ (tableInfo p)] ∧
    (st.searchKey = none →
      (searchStep p st (.submit "abc")).2 = [.onSearch ⟨none, "abc"⟩ (tableInfo p)]) ∧
    initialSearchKey [scenarioBSearchElement] = none := by
  refine ⟨rfl, rfl, rfl, ?_, by decide⟩
  intro h
  simp [searchStep, h]

theorem search_callback_only_on_submit_witness :
    (SearchState.mk "" none).searchKey = none ∧
    (searchStep mockTableProps ⟨"", none⟩ (.submit "abc")).2
      = [.onSearch ⟨none, "abc"⟩ (tableInfo mockTableProps)] :=
  ⟨rfl,
   (search_callback_only_on_submit mockTableProps ⟨"", none⟩ "abc" (.num 1)).2.2.2.1 rfl⟩

end DripTable

namespace DripTable

/-- C5: the display-column selector lists exactly the columns whose hidable
flag is set (in schema order, keyed by column key, check icon shown for
currently displayed keys), renders nothing when no column is hidable, and
each entry click toggles that column's visibility and immediately emits
`onDisplayColumnKeysChange` with the full new display-column key list; with
Scenario A's columns, toggling `mock_1` off emits the callback with
`["mock_2"]` and `mock_2` never appears in the selector. -/
theorem display_column_selector_behavior {R S : Type} (p : TableProps R S)
    (ts : IDripTableContext) (ss : SearchState) (b : GenericRenderElementBasic)
    (btxt : Option String) (k : String) :
    (hidableColumns p.schema = [] →
      renderColumnContent p ts ss ⟨b, .displayColumnSelector btxt⟩ = .null) ∧
    (hidableColumns p.schema ≠ [] →
      renderColumnContent p ts ss ⟨b, .displayColumnSelector btxt⟩
        = .displayColumnSelector
            ((hidableColumns p.schema).map fun c =>
              ⟨c.key, c.title, c.key ∈ ts.displayColumnKeys⟩)
            (jsOrString btxt "展示列")) ∧
    ((displayColumnSelectorClick p ts k).1.displayColumnKeys
        = toggleDisplayColumnKeys ts.displayColumnKeys k ∧
      (displayColumnSelectorClick p ts k).2
        = .onDisplayColumnKeysChange (toggleDisplayColumnKeys ts.displayColumnKeys k)
            (tableInfo p)) ∧
    (hidableColumns mockSchema).map Column.key = ["mock_1"] ∧
    toggleDisplayColumnKeys ["mock_1", "mock_2"] "mock_1" = ["mock_2"] ∧
    (displayColumnSelectorClick p ⟨["mock_1", "mock_2"]⟩ "mock_1").2
      = .onDisplayColumnKeysChange ["mock_2"] (tableInfo p) := by
  refine ⟨?_, ?_, ⟨rfl, rfl⟩, by decide, by decide, ?_⟩
  · intro h
    simp [renderColumnContent, h]
  · intro h
    simp only [renderColumnContent]
    rw [if_neg fun hl => h (List.length_eq_zero.mp hl)]
  · have ht : toggleDisplayColumnKeys ["mock_1", "mock_2"] "mock_1" = ["mock_2"] := by
      decide
    show CallbackCall.onDisplayColumnKeysChange
      (toggleDisplayColumnKeys ["mock_1", "mock_2"] "mock_1") (tableInfo p) = _
    rw [ht]

theorem display_column_selector_behavior_witness :
    hidableColumns mockTableProps.schema ≠ [] ∧
    renderColumnContent mockTableProps ⟨["mock_1", "mock_2"]⟩ ⟨"", none⟩
        ⟨emptyBasic, .displayColumnSelector none⟩
      = .displayColumnSelector
          ((hidableColumns mockTableProps.schema).map fun c =>
            ⟨c.key, c.title, c.key ∈ (IDripTableContext.mk ["mock_1", "mock_2"]).displayColumnKeys⟩)
          (jsOrString none "展示列") :=
  ⟨by decide,
   (display_column_selector_behavior mockTableProps ⟨["mock_1", "mock_2"]⟩ ⟨"", none⟩
     emptyBasic none "mock_1").2.1 (by decide)⟩

/-- C8: the table information is exactly the projection
`{id: schema.id, dataSource}`; it depends only on the schema identifier and
the data source reference; and every callback emission — search submit, the
slot-bound search callback, the insert button and the display-column change —
carries it. -/
theorem table_information_passed_to_all_callbacks {R S : Type} (p q : TableProps R S)
    (st : SearchState) (ts : IDripTableContext) (k s : String) (params : SearchParams) :
    tableInfo p = ⟨p.schema.id, p.dataSource⟩ ∧
    (p.schema.id = q.schema.id → p.dataSource = q.dataSource → tableInfo p = tableInfo q) ∧
    (searchStep p st (.submit s)).2 = [.onSearch ⟨st.searchKey, s⟩ (tableInfo p)] ∧
    slotOnSearch p params = .onSearch params (tableInfo p) ∧
    insertButtonClick p = .onInsertButtonClick (tableInfo p) ∧
    (displayColumnSelectorClick p ts k).2
      = .onDisplayColumnKeysChange (toggleDisplayColumnKeys ts.displayColumnKeys k)
          (tableInfo p) :=
  ⟨rfl, fun h1 h2 => by simp [tableInfo, h1, h2], rfl, rfl, rfl, rfl⟩

theorem table_information_passed_to_all_callbacks_witness :
    ((TableProps.mk ⟨some "t", mockSchema.columns⟩ [1] (none : Option (List (String × Nat)))).schema.id
      = (TableProps.mk ⟨some "t", []⟩ [1] (none : Option (List (String × Nat)))).schema.id) ∧
    ((TableProps.mk ⟨some "t", mockSchema.columns⟩ [1] (none : Option (List (String × Nat)))).dataSource
      = (TableProps.mk ⟨some "t", []⟩ [1] (none : Option (List (String × Nat)))).dataSource) ∧
    tableInfo (TableProps.mk ⟨some "t", mockSchema.columns⟩ [1] (none : Option (List (String × Nat))))
      = tableInfo (TableProps.mk ⟨some "t", []⟩ [1] (none : Option (List (String × Nat)))) :=
  ⟨rfl, rfl,
   (table_information_passed_to_all_callbacks
     (TableProps.mk ⟨some "t", mockSchema.columns⟩ [1] (none : Option (List (String × Nat))))
     (TableProps.mk ⟨some "t", []⟩ [1] (none : Option (List (String × Nat))))
     ⟨"", none⟩ ⟨[]⟩ "k" "s" ⟨none, ""⟩).2.1 rfl rfl⟩

/-- C10: every search element of one toolbar renders the single shared
`searchKey`/`searchStr` state, and the initial selected search key equals the
first truthy `searchKeyDefaultValue` across the element list in array order,
where a default of `0` or the empty string counts as absent (falsy), leaving
the key `undefined` when no truthy default exists. -/
theorem initial_search_key_shared_and_first_truthy
    (schemas : List DripTableGenericRenderElement) {R S : Type} (p : TableProps R S)
    (ts : IDripTableContext) (ss : SearchState) (b : GenericRenderElementBasic)
    (w ph : Option String) (ac : Option Bool) (bt bs : Option String)
    (keys : Option (List SearchKeyItem)) (d : Option SearchVal) :
    initialSearchKey schemas = firstTruthySearchDefault schemas ∧
    jsTruthy (some (.num 0)) = false ∧
    jsTruthy (some (.str "")) = false ∧
    renderColumnContent p ts ss ⟨b, .search w ph ac bt bs keys d⟩
      = .search keys.isSome (keys.getD []) ss.searchKey ss.searchStr := by
  refine ⟨?_, rfl, rfl, rfl⟩
  induction schemas with
  | nil => rfl
  | cons el rest ih =>
    obtain ⟨eb, pl⟩ := el
    cases pl with
    | spacer =>
      simp only [initialSearchKey, firstTruthySearchDefault, List.map_cons]
      rw [List.find?_cons_of_neg _ (by simp [jsTruthy])]
      exact ih
    | text t =>
      simp only [initialSearchKey, firstTruthySearchDefault, List.map_cons]
      rw [List.find?_cons_of_neg _ (by simp [jsTruthy])]
      exact ih
    | html h =>
      simp only [initialSearchKey, firstTruthySearchDefault, List.map_cons]
      rw [List.find?_cons_of_neg _ (by simp [jsTruthy])]
      exact ih
    | slot sid sprops =>
      simp only [initialSearchKey, firstTruthySearchDefault, List.map_cons]
      rw [List.find?_cons_of_neg _ (by simp [jsTruthy])]
      exact ih
    | insertButton t i =>
      simp only [initialSearchKey, firstTruthySearchDefault, List.map_cons]
      rw [List.find?_cons_of_neg _ (by simp [jsTruthy])]
      exact ih
    | displayColumnSelector t =>
      simp only [initialSearchKey, firstTruthySearchDefault, List.map_cons]
      rw [List.find?_cons_of_neg _ (by simp [jsTruthy])]
      exact ih
    | search w1 p1 a1 b1 s1 k1 d1 =>
      cases d1 with
      | none =>
        simp only [initialSearchKey, firstTruthySearchDefault, List.map_cons]
        rw [List.find?_cons_of_neg _ (by simp [jsTruthy])]
        exact ih
      | some v =>
        simp only [initialSearchKey, firstTruthySearchDefault, List.map_cons]
        by_cases hv : jsTruthy (some v) = true
        · rw [List.find?_cons_of_pos _ hv, if_pos hv]
          rfl
        · rw [List.find?_cons_of_neg _ hv, if_neg hv]
          exact ih

end DripTable
